import Mathlib

/-
Verification development for the GnssAgent repository (src/tools.py, src/main.py).

The repository shells out to two external RTKLIB executables and drives them from
an LLM tool-calling loop.  The embedding below models:
  * the Python string and byte primitives the code uses (split, strip, substring
    test, os.path helpers with POSIX separators, the repr of a bytes object,
    strict UTF-8 decoding);
  * the two tool wrappers rnx2rtkp and convbin from src/tools.py, with the
    external process modelled as an oracle from the executed command line to an
    exit status and captured output bytes;
  * the tenacity-decorated chat_completion_request from src/tools.py;
  * call_tool, is_message and the compiled message-graph loop from src/main.py.
Fallible Python code is modelled with Except; every executed subprocess command
is recorded in a trace so that "no subprocess was executed" is expressible.
-/

set_option maxRecDepth 10000

/-- Boolean test that `small` is a leading segment of `big`. -/
def leadsWith [DecidableEq α] : List α → List α → Bool
  | [], _ => true
  | _ :: _, [] => false
  | a :: as, b :: bs => if a = b then leadsWith as bs else false

/-- Python's `needle in hay` test for strings and bytes (contiguous subsegment). -/
def pyIn [DecidableEq α] (needle : List α) : List α → Bool
  | [] => leadsWith needle []
  | b :: bs => leadsWith needle (b :: bs) || pyIn needle bs

/-- Python `str` whitespace characters (ASCII part, which is all the code relies on). -/
def pyIsSpace (c : Char) : Bool :=
  c = ' ' || c = '\t' || c = '\n' || c = '\r' || c = '\x0b' || c = '\x0c'

/-- Helper for Python's `str.split()` with no separator: accumulates the current
word (reversed) and emits maximal non-whitespace runs. -/
def pySplitWsAux : List Char → List Char → List (List Char)
  | acc, [] => if acc.isEmpty then [] else [acc.reverse]
  | acc, c :: rest =>
    if pyIsSpace c then
      if acc.isEmpty then pySplitWsAux [] rest else acc.reverse :: pySplitWsAux [] rest
    else
      pySplitWsAux (c :: acc) rest

/-- Python `s.split()` (split on whitespace runs, dropping empty fields). -/
def pySplitWs (s : String) : List String :=
  (pySplitWsAux [] s.data).map (fun l => String.mk l)

/-- Python `s.split("-o")`: split on each non-overlapping occurrence of the two
character separator `-o`, scanning left to right. -/
def pySplitDashO : List Char → List Char → List (List Char)
  | acc, [] => [acc.reverse]
  | acc, [c] => [(c :: acc).reverse]
  | acc, c :: c2 :: rest =>
    if c = '-' ∧ c2 = 'o' then acc.reverse :: pySplitDashO [] rest
    else pySplitDashO (c :: acc) (c2 :: rest)

/-- Python `s.strip()` (remove leading and trailing whitespace). -/
def pyStrip (s : String) : String :=
  String.mk (((s.data.dropWhile pyIsSpace).reverse.dropWhile pyIsSpace).reverse)

/-- Python `s.split(".")[0]`: the part of `s` before its first dot. -/
def pySplitDotHead (s : String) : String :=
  String.mk (s.data.takeWhile (fun c => c ≠ '.'))

/-- Python `os.path.basename` with POSIX separators: the part after the last slash. -/
def pyBasename (p : String) : String :=
  String.mk ((p.data.reverse.takeWhile (fun c => c ≠ '/')).reverse)

/-- Python `os.path.dirname` with POSIX separators: everything before the last
slash, with trailing slashes removed unless the head is all slashes. -/
def pyDirname (p : String) : String :=
  let afterName := p.data.reverse.dropWhile (fun c => c ≠ '/')
  if afterName.isEmpty then ""
  else if afterName.all (fun c => c = '/') then String.mk afterName.reverse
  else String.mk ((afterName.dropWhile (fun c => c = '/')).reverse)

/-- Python `os.path.join a b` with POSIX separators (two-argument form). -/
def pyPathJoin (a b : String) : String :=
  if b.data.head? = some '/' then b
  else if a = "" ∨ a.data.getLast? = some '/' then a ++ b
  else a ++ "/" ++ b

/-- Lowercase hexadecimal digit for `n < 16`. -/
def hexDigit (n : Nat) : Char :=
  if n < 10 then Char.ofNat (48 + n) else Char.ofNat (87 + n)

/-- How Python renders one byte inside the repr of a bytes object quoted by `q`. -/
def pyByteEscape (q : Char) (b : Nat) : List Char :=
  if b = 92 then ['\\', '\\']
  else if b = q.toNat then ['\\', q]
  else if b = 9 then ['\\', 't']
  else if b = 10 then ['\\', 'n']
  else if b = 13 then ['\\', 'r']
  else if 32 ≤ b ∧ b < 127 then [Char.ofNat b]
  else ['\\', 'x', hexDigit (b / 16), hexDigit (b % 16)]

/-- Python `str(bytesObject)` = `repr(bytesObject)`: a `b` prefix, a quote
character (a single quote unless the bytes contain one and no double quote),
and the escaped bytes. -/
def pyBytesRepr (bs : List Nat) : String :=
  let q : Char := if bs.contains 39 && !(bs.contains 34) then '"' else '\''
  String.mk ('b' :: q :: (bs.map (pyByteEscape q)).flatten ++ [q])

/-- Strict UTF-8 decoding of a byte list, as Python's `bytes.decode()` performs:
rejects stray continuation bytes, overlong forms, surrogates and values above
U+10FFFF.  Returns `none` exactly when Python raises `UnicodeDecodeError`. -/
def utf8Decode : List Nat → Option (List Char)
  | [] => some []
  | b :: rest =>
    if b < 0x80 then
      (utf8Decode rest).map (fun cs => Char.ofNat b :: cs)
    else if b < 0xC2 then none
    else if b < 0xE0 then
      match rest with
      | c1 :: rest2 =>
        if 0x80 ≤ c1 ∧ c1 < 0xC0 then
          (utf8Decode rest2).map (fun cs => Char.ofNat ((b - 0xC0) * 0x40 + (c1 - 0x80)) :: cs)
        else none
      | [] => none
    else if b < 0xF0 then
      match rest with
      | c1 :: c2 :: rest3 =>
        let lo1 := if b = 0xE0 then 0xA0 else 0x80
        let hi1 := if b = 0xED then 0xA0 else 0xC0
        if lo1 ≤ c1 ∧ c1 < hi1 ∧ 0x80 ≤ c2 ∧ c2 < 0xC0 then
          (utf8Decode rest3).map
            (fun cs => Char.ofNat ((b - 0xE0) * 0x1000 + (c1 - 0x80) * 0x40 + (c2 - 0x80)) :: cs)
        else none
      | _ => none
    else if b < 0xF5 then
      match rest with
      | c1 :: c2 :: c3 :: rest4 =>
        let lo1 := if b = 0xF0 then 0x90 else 0x80
        let hi1 := if b = 0xF4 then 0x90 else 0xC0
        if lo1 ≤ c1 ∧ c1 < hi1 ∧ 0x80 ≤ c2 ∧ c2 < 0xC0 ∧ 0x80 ≤ c3 ∧ c3 < 0xC0 then
          (utf8Decode rest4).map
            (fun cs =>
              Char.ofNat ((b - 0xF0) * 0x40000 + (c1 - 0x80) * 0x1000 +
                (c2 - 0x80) * 0x40 + (c3 - 0x80)) :: cs)
        else none
      | _ => none
    else none

/-- The byte values of an ASCII string literal (used for bytes literals such as
`b'processing'` in the source). -/
def strBytes (s : String) : List Nat :=
  s.data.map Char.toNat

/-- Decidable equality for `Except`, wanted for evaluating the model on
concrete inputs. -/
instance {ε α : Type} [DecidableEq ε] [DecidableEq α] : DecidableEq (Except ε α) := fun a b =>
  match a, b with
  | .ok x, .ok y =>
    if h : x = y then isTrue (by rw [h]) else isFalse (by intro hc; cases hc; exact h rfl)
  | .error x, .error y =>
    if h : x = y then isTrue (by rw [h]) else isFalse (by intro hc; cases hc; exact h rfl)
  | .ok _, .error _ => isFalse (by intro hc; cases hc)
  | .error _, .ok _ => isFalse (by intro hc; cases hc)

/-
Model of src/tools.py.
-/

/-- Python exceptions that the modelled code can raise. -/
inductive PyErr where
  | indexError
  | keyError
  | jsonDecodeError
  | unicodeDecodeError
  | unknownToolError
  | argumentValidationError
  | retryError
deriving DecidableEq

/-- Outcome of `subprocess.run(command, capture_output=True)`: the exit status
and the captured standard output and standard error byte strings. -/
structure ProcResult where
  returncode : Int
  stdout : List Nat
  stderr : List Nat
deriving DecidableEq

/-- The external-process oracle: what the machine would return for each executed
command line.  The executables are opaque collaborators of the repository. -/
def Env : Type := List String → ProcResult

/-- RTKLIB_FOLDER from src/tools.py. -/
def RTKLIB_FOLDER : String := "C:\\GNSS\\RTKLIB_bin-rtklib_2.4.3\\bin"

/-- `os.path.join(RTKLIB_FOLDER, "rnx2rtkp.exe")` from src/tools.py. -/
def rnx2rtkp_path : String := pyPathJoin RTKLIB_FOLDER "rnx2rtkp.exe"

/-- `os.path.join(RTKLIB_FOLDER, "convbin.exe")` from src/tools.py. -/
def convbin_path : String := pyPathJoin RTKLIB_FOLDER "convbin.exe"

/-- Python truthiness of an optional string parameter (`if extra_commands:`):
false for `None` and for the empty string. -/
def pyTruthy : Option String → Bool
  | none => false
  | some s => !(s = "")

/-- The output-file computation of `rnx2rtkp` (src/tools.py lines 81-85):
if `extra_commands` is truthy and contains the substring `-o`, take
`extra_commands.split("-o")[1].strip()`; otherwise join the directory of the
first input file with its basename up to the first dot plus `_pvt_output.pos`
(an IndexError on an empty input list). -/
def rnx2rtkp_output_file (input_files : List String) (extra_commands : Option String) :
    Except PyErr String :=
  if pyTruthy extra_commands && pyIn ['-', 'o'] (extra_commands.getD "").data then
    match (pySplitDashO [] (extra_commands.getD "").data).get? 1 with
    | some seg => .ok (pyStrip (String.mk seg))
    | none => .error .indexError
  else
    match input_files with
    | [] => .error .indexError
    | f :: _ =>
      .ok (pyPathJoin (pyDirname f) (pySplitDotHead (pyBasename f) ++ "_pvt_output.pos"))

/-- The command line `rnx2rtkp` executes (src/tools.py lines 76-79 and 87):
the executable, the input files, the whitespace-split extra commands when
truthy, then `-o` and the resolved output file. -/
def rnx2rtkp_command (input_files : List String) (extra_commands : Option String)
    (output_file : String) : List String :=
  rnx2rtkp_path ::
    (input_files ++ (if pyTruthy extra_commands then pySplitWs (extra_commands.getD "") else [])
      ++ ["-o", output_file])

/-- The wrapper function `rnx2rtkp` from src/tools.py (lines 62-95).  The result
pairs the returned summary (or the propagated exception) with the list of
subprocess command lines that were executed.  Success is classified by
`b'processing' in result.stderr`; on failure the summary embeds
`f"{result.stderr}"`, which is the repr of the bytes object. -/
def rnx2rtkp (env : Env) (input_files : List String) (extra_commands : Option String) :
    Except PyErr String × List (List String) :=
  match rnx2rtkp_output_file input_files extra_commands with
  | .error e => (.error e, [])
  | .ok output_file =>
    let command := rnx2rtkp_command input_files extra_commands output_file
    let result := env command
    let output_str :=
      "The output from rnx2rtkp executable is as follows:\n" ++
        (if pyIn (strBytes "processing") result.stderr then
          "The generated PVT output file is successfully generated at: " ++ output_file ++ "\n"
        else
          "Standard error:\n" ++ pyBytesRepr result.stderr ++ "\n")
    (.ok output_str, [command])

/-- The command line `convbin` executes (src/tools.py lines 193-196). -/
def convbin_command (file_to_convert : String) (options : Option String) : List String :=
  convbin_path :: file_to_convert ::
    (if pyTruthy options then pySplitWs (options.getD "") else [])

/-- The wrapper function `convbin` from src/tools.py (lines 186-204).  Success
is classified by `result.returncode == 0 and not 'error' in
result.stderr.decode()`; the decode is strict UTF-8 and raises
`UnicodeDecodeError` on undecodable bytes (only reached when the exit status is
zero, because `and` short-circuits). -/
def convbin (env : Env) (file_to_convert : String) (options : Option String) :
    Except PyErr String × List (List String) :=
  let command := convbin_command file_to_convert options
  let result := env command
  let header := "The output from convbin executable is as follows:\n"
  if result.returncode = 0 then
    match utf8Decode result.stderr with
    | none => (.error .unicodeDecodeError, [command])
    | some decoded =>
      if pyIn "error".data decoded then
        (.ok (header ++ "Standard error:\n" ++ pyBytesRepr result.stderr ++ "\n"), [command])
      else
        (.ok (header ++ "The conversion is successful! Output files are in folder " ++
          pyDirname file_to_convert ++ " \n"), [command])
  else
    (.ok (header ++ "Standard error:\n" ++ pyBytesRepr result.stderr ++ "\n"), [command])

/-- The parsed argument payload of a tool call (the result of `json.loads` on
the model-serialized argument string): either arguments shaped for one of the
two registered tools, or text that does not parse as JSON. -/
inductive ToolInput where
  | rnx (input_files : List String) (extra_commands : Option String)
  | conv (file_to_convert : String) (options : Option String)
  | malformedJson
deriving DecidableEq

/-- One entry of `additional_kwargs["tool_calls"]`: the call identifier, the
function name and the (parsed) argument payload. -/
structure ToolCall where
  id : String
  name : String
  args : ToolInput
deriving DecidableEq

/-- Modelled from the spec: the langgraph `ToolExecutor` used by src/main.py is
third-party code that is not part of this repository's sources, so its
dispatch is modelled from the spec's Tool Invoker contract: it resolves the
tool name against the registered tools (`ALL_TOOLS = [rnx2rtkp, convbin]`),
raises `UnknownToolError` without executing any subprocess when the name is
unregistered, raises an argument-validation error without executing any
subprocess when the payload does not fit the named tool's schema, and otherwise
runs the named wrapper function. -/
def tool_executor_invoke (env : Env) (name : String) (args : ToolInput) :
    Except PyErr String × List (List String) :=
  if name = "rnx2rtkp" then
    match args with
    | .rnx i e => rnx2rtkp env i e
    | _ => (.error .argumentValidationError, [])
  else if name = "convbin" then
    match args with
    | .conv f o => convbin env f o
    | _ => (.error .argumentValidationError, [])
  else (.error .unknownToolError, [])

/-- What one call of the body of `chat_completion_request` yields: either the
completion response, or the caught exception returned as the value (the
`except` branch prints and then `return e`). -/
inductive ChatResult where
  | response (r : String)
  | exceptionValue (e : String)
deriving DecidableEq

/-- The tenacity `retry(stop=stop_after_attempt n)` combinator: call the body,
return its value if it returns normally, retry if it raises, and raise
`RetryError` once `n` attempts have all raised.  The second component counts
the attempts actually made; `k` counts attempts already made. -/
def tenacityRun {A : Type} (body : Nat → Except String A) : Nat → Nat → Except String A × Nat
  | k, 0 => (.error "RetryError", k)
  | k, Nat.succ n =>
    match body (k + 1) with
    | .ok a => (.ok a, k + 1)
    | .error e => if n = 0 then (.error ("RetryError: " ++ e), k + 1) else tenacityRun body (k + 1) n

/-- The try/except body of `chat_completion_request` (src/tools.py lines
214-225): the completion API either returns a response or raises; the `except`
branch catches every exception and returns it as the result, so the body never
raises.  The API is an oracle indexed by the attempt number. -/
def chat_completion_body (api : Nat → Except String String) (attempt : Nat) : ChatResult :=
  match api attempt with
  | .ok r => .response r
  | .error e => .exceptionValue e

/-- `chat_completion_request` from src/tools.py (lines 212-225): the body
wrapped by `@retry(wait=wait_random_exponential(...), stop=stop_after_attempt(3))`.
The pair gives the outcome and the number of attempts made. -/
def chat_completion_request (api : Nat → Except String String) : Except String ChatResult × Nat :=
  tenacityRun (fun k => .ok (chat_completion_body api k)) 0 3

/-
Model of src/main.py.
-/

/-- Message roles used by the conversation. -/
inductive Role where
  | system
  | user
  | assistant
  | tool
deriving DecidableEq

/-- A conversation message: role, textual content, and the relevant parts of
`additional_kwargs` (`tool_calls` when present) together with the
`tool_call_id` and name tag of a ToolMessage. -/
structure Message where
  role : Role
  content : String
  tool_calls : Option (List ToolCall)
  tool_call_id : Option String
  kwName : Option String
deriving DecidableEq

/-- `HumanMessage(content=u)`. -/
def humanMessage (u : String) : Message :=
  ⟨Role.user, u, none, none, none⟩

/-- The `ToolMessage(tool_call_id=..., content=str(response), additional_kwargs=
{"name": ...})` built at src/main.py lines 40-44. -/
def mkToolMessage (id content name : String) : Message :=
  ⟨Role.tool, content, none, some id, some name⟩

/-- `is_message` from src/main.py (lines 16-22): routes on whether the last
message's `additional_kwargs` carries a `tool_calls` key.  (The graph only calls
it on non-empty histories; an empty history is routed as a plain message.) -/
def is_message (messages : List Message) : String :=
  match messages.getLast? with
  | none => "message"
  | some last =>
    match last.tool_calls with
    | none => "message"
    | some _ => "function_call"

/-- `call_tool` from src/main.py (lines 25-45): takes the last message's first
tool call, parses its arguments, invokes the tool executor and wraps the
response in a ToolMessage tagged with the call identifier.  Result and executed
subprocess trace, with the Python exceptions of each failing step. -/
def call_tool (env : Env) (messages : List Message) :
    Except PyErr Message × List (List String) :=
  match messages.getLast? with
  | none => (.error .indexError, [])
  | some last =>
    match last.tool_calls with
    | none => (.error .keyError, [])
    | some [] => (.error .indexError, [])
    | some (c :: _) =>
      match c.args with
      | .malformedJson => (.error .jsonDecodeError, [])
      | _ =>
        match tool_executor_invoke env c.name c.args with
        | (.error e, tr) => (.error e, tr)
        | (.ok s, tr) => (.ok (mkToolMessage c.id s c.name), tr)

/-- Modelled from the spec: the langgraph MessageGraph runtime that executes
the compiled graph is third-party code not in src/, so its stepping is taken
from the spec's conversation-loop state machine, instantiated with the node and
edge wiring of src/main.py (lines 52-62): the entry node `agent` computes a
reply from the history and appends it; the conditional edge routes via
`is_message` either to END or to the `tools` node, which appends the
`call_tool` result and loops back to `agent`.  The language model is an oracle
from the history to a reply; `fuel` bounds the number of agent turns (the
source imposes no bound); an exception inside `call_tool` propagates out of the
run, modelled as `none`. -/
def graphRun (agent : List Message → Message) (env : Env) :
    Nat → List Message → Option (List Message)
  | 0, h => some h
  | Nat.succ fuel, h =>
    let m := agent h
    let h1 := h ++ [m]
    if is_message h1 = "message" then some h1
    else
      match call_tool env h1 with
      | (.error _, _) => none
      | (.ok t, _) => graphRun agent env fuel (h1 ++ [t])

/-- One user turn of the interactive loop at the bottom of src/main.py (lines
64-83): a quit sentinel ends the session without touching the history;
otherwise the user message is appended and the graph is streamed.  That the new
history, `output[END]`, is the full accumulated message list is modelled from
the spec's description of the stream's END output (the stream implementation is
third-party). -/
def sessionStep (agent : List Message → Message) (env : Env) (fuel : Nat)
    (history : List Message) (user : String) : Option (List Message) :=
  if user = "q" ∨ user = "Q" then none
  else graphRun agent env fuel (history ++ [humanMessage user])

/-- The alternation discipline the spec states for the conversation loop,
relative to an agent oracle and a process environment: the produced suffix is
either cut off (out of fuel), or ends at a reply without a tool call, or starts
with a tool-call reply immediately followed by exactly one tool-result message
carrying the same call identifier — produced by `call_tool` — after which the
loop continues from the extended history. -/
inductive LoopTrace (agent : List Message → Message) (env : Env) :
    List Message → List Message → Prop
  | cutOff (h : List Message) : LoopTrace agent env h []
  | finalReply (h : List Message) :
      (agent h).tool_calls = none →
      LoopTrace agent env h [agent h]
  | toolStep (h : List Message) (t : Message) (rest : List Message)
      (c : ToolCall) (cs : List ToolCall) :
      (agent h).tool_calls = some (c :: cs) →
      (call_tool env (h ++ [agent h])).1 = .ok t →
      t.tool_call_id = some c.id →
      LoopTrace agent env (h ++ [agent h, t]) rest →
      LoopTrace agent env h (agent h :: t :: rest)

/-
Concrete instances used to evaluate the model.
-/

/-- A process oracle that exits 0 with empty captured output. -/
def envSilent : Env := fun _ => ⟨0, [], []⟩

/-- A process oracle that exits 0 with `processing done` on standard error. -/
def envProcessing : Env := fun _ => ⟨0, [], strBytes "processing done"⟩

/-- A process oracle that exits 1 with `fatal` on standard error. -/
def envFatal : Env := fun _ => ⟨1, [], strBytes "fatal"⟩

/-- A process oracle that exits 1 with the bytes of `a`, newline, `b` on
standard error. -/
def envNewline : Env := fun _ => ⟨1, [], [97, 10, 98]⟩

/-- A process oracle that exits 0 with the single byte 255 (not valid UTF-8) on
standard error. -/
def envBadByte : Env := fun _ => ⟨0, [], [255]⟩

/-- An agent oracle that always answers with a plain assistant message. -/
def agentPlain : List Message → Message :=
  fun _ => ⟨Role.assistant, "hi", none, none, none⟩

/-
Helper lemmas about the Python primitives.
-/

theorem leadsWith_iff {α : Type} [DecidableEq α] :
    ∀ (n h : List α), leadsWith n h = true ↔ n <+: h := by
  intro n
  induction n with
  | nil => intro h; simp [leadsWith, List.nil_prefix]
  | cons a as ih =>
    intro h
    cases h with
    | nil => simp [leadsWith]
    | cons b bs =>
      simp only [leadsWith]
      by_cases hab : a = b
      · subst hab
        simp [List.cons_prefix_cons, ih]
      · simp [hab, List.cons_prefix_cons]

theorem pyIn_iff {α : Type} [DecidableEq α] :
    ∀ (n h : List α), pyIn n h = true ↔ n <:+: h := by
  intro n h
  induction h with
  | nil => cases n <;> simp [pyIn, leadsWith]
  | cons b bs ih =>
    simp only [pyIn, Bool.or_eq_true, leadsWith_iff, ih, List.infix_cons_iff]

theorem pySplitWsAux_infix :
    ∀ (l acc out : List Char), out ∈ pySplitWsAux acc l → out <:+: (acc.reverse ++ l) := by
  intro l
  induction l with
  | nil =>
    intro acc out hm
    simp only [pySplitWsAux] at hm
    by_cases hacc : acc.isEmpty
    · simp [hacc] at hm
    · simp only [hacc, if_neg, Bool.false_eq_true, ite_false, List.mem_singleton] at hm
      subst hm
      exact ⟨[], [], by simp⟩
  | cons c rest ih =>
    intro acc out hm
    simp only [pySplitWsAux] at hm
    by_cases hsp : pyIsSpace c
    · simp only [hsp, if_pos] at hm
      by_cases hacc : acc.isEmpty
      · simp only [hacc, if_pos] at hm
        have h1 := ih [] out hm
        simp only [List.reverse_nil, List.nil_append] at h1
        exact h1.trans ⟨acc.reverse ++ [c], [], by simp⟩
      · simp only [hacc, Bool.false_eq_true, ite_false, List.mem_cons] at hm
        rcases hm with hm | hm
        · subst hm
          exact ⟨[], c :: rest, by simp⟩
        · have h1 := ih [] out hm
          simp only [List.reverse_nil, List.nil_append] at h1
          exact h1.trans ⟨acc.reverse ++ [c], [], by simp⟩
    · simp only [hsp, Bool.false_eq_true, ite_false] at hm
      have h1 := ih (c :: acc) out hm
      simpa using h1

theorem pySplitWs_mem (e : String) (t : String) (hm : t ∈ pySplitWs e) :
    t.data <:+: e.data := by
  simp only [pySplitWs, List.mem_map] at hm
  obtain ⟨l, hl, rfl⟩ := hm
  have h1 := pySplitWsAux_infix e.data [] l hl
  simpa using h1

theorem notin_pySplitWs_of_not_pyIn (e : String) (t : String)
    (h : pyIn t.data e.data = false) : t ∉ pySplitWs e := by
  intro hm
  have h1 := pySplitWs_mem e t hm
  rw [← pyIn_iff] at h1
  rw [h] at h1
  cases h1

theorem pySplitDashO_length_pos : ∀ (acc l : List Char), 1 ≤ (pySplitDashO acc l).length := by
  intro acc l
  induction acc, l using pySplitDashO.induct with
  | case1 acc => simp [pySplitDashO]
  | case2 acc c => simp [pySplitDashO]
  | case3 acc c c2 rest h ih => simp [pySplitDashO, h]
  | case4 acc c c2 rest h ih =>
    rw [pySplitDashO]
    rw [if_neg h]
    exact ih

theorem pySplitDashO_length_two :
    ∀ (acc l : List Char), ['-', 'o'] <:+: l → 2 ≤ (pySplitDashO acc l).length := by
  intro acc l
  induction acc, l using pySplitDashO.induct with
  | case1 acc => intro hin; simp at hin
  | case2 acc c =>
    intro hin
    have := hin.length_le
    simp at this
  | case3 acc c c2 rest h ih =>
    intro _
    rw [pySplitDashO, if_pos h]
    have := pySplitDashO_length_pos [] rest
    simp
    omega
  | case4 acc c c2 rest h ih =>
    intro hin
    rw [pySplitDashO, if_neg h]
    apply ih
    rcases List.infix_cons_iff.mp hin with hpre | hinf
    · exfalso
      rw [List.cons_prefix_cons] at hpre
      obtain ⟨hc, hpre2⟩ := hpre
      rw [List.cons_prefix_cons] at hpre2
      exact h ⟨hc.symm, hpre2.1.symm⟩
    · exact hinf

theorem pySplitDashO_get1 (l : List Char) (h : pyIn ['-', 'o'] l = true) :
    ∃ seg, (pySplitDashO [] l).get? 1 = some seg := by
  have h2 := pySplitDashO_length_two [] l ((pyIn_iff _ _).mp h)
  cases hq : (pySplitDashO [] l).get? 1 with
  | some seg => exact ⟨seg, rfl⟩
  | none =>
    have h3 := List.get?_eq_none.mp hq
    omega

theorem pyPathJoin_length (a b : String) : b.length ≤ (pyPathJoin a b).length := by
  unfold pyPathJoin
  split
  · exact Nat.le_refl _
  · split
    · simp
    · simp

theorem rnx2rtkp_default_out_ne (f : String) :
    pyPathJoin (pyDirname f) (pySplitDotHead (pyBasename f) ++ "_pvt_output.pos") ≠ "-o" := by
  intro hc
  have h1 := pyPathJoin_length (pyDirname f) (pySplitDotHead (pyBasename f) ++ "_pvt_output.pos")
  rw [hc] at h1
  have h2 : ("-o" : String).length = 2 := rfl
  have h4 : ("_pvt_output.pos" : String).length = 15 := rfl
  have h3 : (pySplitDotHead (pyBasename f) ++ "_pvt_output.pos").length =
      (pySplitDotHead (pyBasename f)).length + 15 := by
    rw [String.length_append, h4]
  omega


theorem rnx2rtkp_output_file_ok (input_files : List String) (extra : Option String)
    (h : input_files ≠ []) : ∃ o, rnx2rtkp_output_file input_files extra = .ok o := by
  unfold rnx2rtkp_output_file
  by_cases hb : (pyTruthy extra && pyIn ['-', 'o'] (extra.getD "").data) = true
  · rw [if_pos hb]
    simp only [Bool.and_eq_true] at hb
    obtain ⟨seg, hseg⟩ := pySplitDashO_get1 _ hb.2
    rw [hseg]
    exact ⟨_, rfl⟩
  · rw [if_neg hb]
    cases input_files with
    | nil => exact absurd rfl h
    | cons f rest => exact ⟨_, rfl⟩

theorem rnx2rtkp_eval (env : Env) (i : List String) (e : Option String) (o : String)
    (h : rnx2rtkp_output_file i e = .ok o) :
    rnx2rtkp env i e =
      (.ok ("The output from rnx2rtkp executable is as follows:\n" ++
        (if pyIn (strBytes "processing") (env (rnx2rtkp_command i e o)).stderr then
          "The generated PVT output file is successfully generated at: " ++ o ++ "\n"
        else
          "Standard error:\n" ++ pyBytesRepr (env (rnx2rtkp_command i e o)).stderr ++ "\n")),
       [rnx2rtkp_command i e o]) := by
  unfold rnx2rtkp
  rw [h]

theorem is_message_concat (h : List Message) (m : Message) :
    is_message (h ++ [m]) =
      (match m.tool_calls with
       | none => "message"
       | some _ => "function_call") := by
  unfold is_message
  rw [List.getLast?_concat]

theorem call_tool_last (env : Env) (ms : List Message) (m : Message)
    (hm : ms.getLast? = some m) :
    call_tool env ms =
      (match m.tool_calls with
       | none => (.error .keyError, [])
       | some [] => (.error .indexError, [])
       | some (c :: _) =>
         match c.args with
         | .malformedJson => (.error .jsonDecodeError, [])
         | _ =>
           match tool_executor_invoke env c.name c.args with
           | (.error e, tr) => (.error e, tr)
           | (.ok s, tr) => (.ok (mkToolMessage c.id s c.name), tr)) := by
  unfold call_tool
  rw [hm]

theorem call_tool_no_calls (env : Env) (ms : List Message) (m : Message)
    (hm : ms.getLast? = some m) (htc : m.tool_calls = none) :
    call_tool env ms = (.error .keyError, []) := by
  simp only [call_tool, hm, htc]

theorem call_tool_nil_calls (env : Env) (ms : List Message) (m : Message)
    (hm : ms.getLast? = some m) (htc : m.tool_calls = some []) :
    call_tool env ms = (.error .indexError, []) := by
  simp only [call_tool, hm, htc]

theorem call_tool_cons_calls (env : Env) (ms : List Message) (m : Message)
    (c : ToolCall) (cs : List ToolCall)
    (hm : ms.getLast? = some m) (htc : m.tool_calls = some (c :: cs)) :
    call_tool env ms =
      (match c.args with
       | .malformedJson => (.error .jsonDecodeError, [])
       | _ =>
         match tool_executor_invoke env c.name c.args with
         | (.error e, tr) => (.error e, tr)
         | (.ok s, tr) => (.ok (mkToolMessage c.id s c.name), tr)) := by
  simp only [call_tool, hm, htc]

theorem call_tool_ok_calls (env : Env) (ms : List Message) (m : Message) (t : Message)
    (hm : ms.getLast? = some m) (hok : (call_tool env ms).1 = .ok t) :
    ∃ c cs, m.tool_calls = some (c :: cs) ∧ t.tool_call_id = some c.id := by
  cases htc : m.tool_calls with
  | none => rw [call_tool_no_calls env ms m hm htc] at hok; simp at hok
  | some l =>
    cases l with
    | nil => rw [call_tool_nil_calls env ms m hm htc] at hok; simp at hok
    | cons c cs =>
      rw [call_tool_cons_calls env ms m c cs hm htc] at hok
      refine ⟨c, cs, rfl, ?_⟩
      cases hargs : c.args with
      | malformedJson => rw [hargs] at hok; simp at hok
      | rnx a b =>
        rw [hargs] at hok
        cases hinv : tool_executor_invoke env c.name (.rnx a b) with
        | mk r tr =>
          rw [hinv] at hok
          cases r with
          | error e2 => simp at hok
          | ok s =>
            simp only [Except.ok.injEq] at hok
            rw [← hok]
            rfl
      | conv a b =>
        rw [hargs] at hok
        cases hinv : tool_executor_invoke env c.name (.conv a b) with
        | mk r tr =>
          rw [hinv] at hok
          cases r with
          | error e2 => simp at hok
          | ok s =>
            simp only [Except.ok.injEq] at hok
            rw [← hok]
            rfl

theorem graphRun_append (agent : List Message → Message) (env : Env) :
    ∀ (fuel : Nat) (h out : List Message),
      graphRun agent env fuel h = some out → ∃ p, out = h ++ p := by
  intro fuel
  induction fuel with
  | zero =>
    intro h out hr
    simp only [graphRun, Option.some.injEq] at hr
    exact ⟨[], by rw [← hr, List.append_nil]⟩
  | succ n ih =>
    intro h out hr
    simp only [graphRun] at hr
    by_cases hmsg : is_message (h ++ [agent h]) = "message"
    · rw [if_pos hmsg] at hr
      replace hr := Option.some.inj hr
      exact ⟨[agent h], hr.symm⟩
    · rw [if_neg hmsg] at hr
      cases hct : call_tool env (h ++ [agent h]) with
      | mk r tr =>
        rw [hct] at hr
        cases r with
        | error e => simp at hr
        | ok t =>
          simp only at hr
          obtain ⟨p, hp⟩ := ih _ out hr
          exact ⟨[agent h] ++ [t] ++ p, by rw [hp]; simp⟩

theorem graphRun_loopTrace (agent : List Message → Message) (env : Env)
    (Hok : ∀ h l, (agent h).tool_calls = some l →
      ((call_tool env (h ++ [agent h])).1).isOk = true) :
    ∀ (fuel : Nat) (h : List Message),
      ∃ p, graphRun agent env fuel h = some (h ++ p) ∧ LoopTrace agent env h p := by
  intro fuel
  induction fuel with
  | zero =>
    intro h
    exact ⟨[], by simp [graphRun], LoopTrace.cutOff h⟩
  | succ n ih =>
    intro h
    cases htc0 : (agent h).tool_calls with
    | none =>
      have hmsg : is_message (h ++ [agent h]) = "message" := by
        rw [is_message_concat, htc0]
      refine ⟨[agent h], ?_, LoopTrace.finalReply h htc0⟩
      simp only [graphRun]
      rw [if_pos hmsg]
    | some l =>
      have hok := Hok h l htc0
      have hmsg : ¬ is_message (h ++ [agent h]) = "message" := by
        rw [is_message_concat, htc0]
        intro hcon
        simp at hcon
      cases hct : call_tool env (h ++ [agent h]) with
      | mk r tr =>
        cases r with
        | error e =>
          rw [hct] at hok
          simp [Except.isOk, Except.toBool] at hok
        | ok t =>
          obtain ⟨c, cs, htc', hid⟩ :=
            call_tool_ok_calls env (h ++ [agent h]) (agent h) t
              (List.getLast?_concat _) (by rw [hct])
          obtain ⟨p, hrun, htr⟩ := ih ((h ++ [agent h]) ++ [t])
          refine ⟨agent h :: t :: p, ?_, ?_⟩
          · simp only [graphRun, hct]
            rw [if_neg hmsg]
            rw [hrun]
            congr 1
            simp
          · refine LoopTrace.toolStep h t p c cs htc' (by rw [hct]) hid ?_
            have heq : (h ++ [agent h]) ++ [t] = h ++ [agent h, t] := by simp
            rw [← heq]
            exact htr


/-
Claim theorems.
-/

/-- Claim C2: the claim says three consecutive completion-API exceptions lead to
exactly three attempts and then a degraded error response.  In the code the
`except` branch inside the decorated function catches every exception and
returns it as the value, so tenacity sees a normal return and never retries:
for every API oracle the function makes exactly one attempt and yields the
caught exception as the response (first conjunct; evaluated at an
always-raising API in the second).  The third conjunct shows the modelled
tenacity combinator itself would indeed make three attempts and raise
`RetryError` if the body did let the exception propagate, locating the defect
in the wrapped function, not in the retry model. -/
theorem C2_retry_defeated :
    (∀ api, chat_completion_request api = (.ok (chat_completion_body api 1), 1)) ∧
    chat_completion_request (fun _ => .error "API down") =
      (.ok (.exceptionValue "API down"), 1) ∧
    tenacityRun (fun _ => (.error "boom" : Except String String)) 0 3 =
      (.error "RetryError: boom", 3) :=
  ⟨fun _ => rfl, rfl, rfl⟩

/-- Claim C3: invoking a tool whose name is neither `rnx2rtkp` nor `convbin`
raises `UnknownToolError` and executes no subprocess (the trace is empty). -/
theorem C3_unknown_tool (env : Env) (name : String) (args : ToolInput)
    (h1 : name ≠ "rnx2rtkp") (h2 : name ≠ "convbin") :
    tool_executor_invoke env name args = (.error .unknownToolError, []) := by
  unfold tool_executor_invoke
  rw [if_neg h1, if_neg h2]

/-- Witness for C3 at the concrete unregistered name `frobnicate`. -/
theorem C3_unknown_tool_witness :
    tool_executor_invoke envSilent "frobnicate" (.conv "data/x.ubx" none) =
      (.error .unknownToolError, []) :=
  C3_unknown_tool envSilent "frobnicate" (.conv "data/x.ubx" none)
    (by decide) (by decide)

/-- Claim C10: an `rnx2rtkp` call with an empty `input_files` list and no `-o`
override raises IndexError in the default output-path computation, with an
empty subprocess trace: nothing was executed. -/
theorem C10_empty_inputs (env : Env) (extra : Option String)
    (h : ¬ (pyTruthy extra = true ∧ pyIn ['-', 'o'] (extra.getD "").data = true)) :
    rnx2rtkp env [] extra = (.error .indexError, []) := by
  have hcond : ¬ (pyTruthy extra && pyIn ['-', 'o'] (extra.getD "").data) = true := by
    rw [Bool.and_eq_true]
    exact h
  unfold rnx2rtkp rnx2rtkp_output_file
  rw [if_neg hcond]

/-- Witness for C10 with no extra commands at all. -/
theorem C10_empty_inputs_witness :
    rnx2rtkp envSilent [] none = (.error .indexError, []) :=
  C10_empty_inputs envSilent none (by decide)


/-- Claim C1 counterexample: a concrete `rnx2rtkp` run whose process exits with
status 0 and whose captured standard error is empty — so it contains no failure
marker of any kind (in particular not `error`) — yet the returned summary is
the error branch: it does not report success and does not mention the resolved
output path `data/a_pvt_output.pos`.  The classification for this tool keys on
the presence of `processing` in standard error and ignores the exit status. -/
theorem C1_counterexample :
    (envSilent (rnx2rtkp_command ["data/a.obs"] none "data/a_pvt_output.pos")).returncode = 0 ∧
    (envSilent (rnx2rtkp_command ["data/a.obs"] none "data/a_pvt_output.pos")).stderr = [] ∧
    (rnx2rtkp envSilent ["data/a.obs"] none).1 =
      .ok ("The output from rnx2rtkp executable is as follows:\n" ++ "Standard error:\n" ++
        pyBytesRepr [] ++ "\n") ∧
    pyIn "a_pvt_output.pos".data
      ("The output from rnx2rtkp executable is as follows:\n" ++ "Standard error:\n" ++
        pyBytesRepr [] ++ "\n").data = false ∧
    pyIn "success".data
      ("The output from rnx2rtkp executable is as follows:\n" ++ "Standard error:\n" ++
        pyBytesRepr [] ++ "\n").data = false := by
  refine ⟨rfl, rfl, by decide, by decide, by decide⟩

/-- Claim C1 (amended): `rnx2rtkp` reports success exactly when the byte string
`processing` occurs in the captured standard error (the exit status is not
consulted), and the success summary then embeds the resolved `-o` output path;
`convbin` reports success exactly when the exit status is 0 and `error` does
not occur in the UTF-8-decoded standard error, and the success summary then
embeds the output location (the directory of the converted file). -/
theorem C1_success_reporting (env : Env) (i : List String) (e : Option String) (o : String)
    (f : String) (opts : Option String) (d : List Char)
    (h1 : rnx2rtkp_output_file i e = .ok o)
    (h2 : pyIn (strBytes "processing") (env (rnx2rtkp_command i e o)).stderr = true)
    (h3 : (env (convbin_command f opts)).returncode = 0)
    (h4 : utf8Decode (env (convbin_command f opts)).stderr = some d)
    (h5 : pyIn "error".data d = false) :
    (rnx2rtkp env i e).1 =
      .ok ("The output from rnx2rtkp executable is as follows:\n" ++
        ("The generated PVT output file is successfully generated at: " ++ o ++ "\n")) ∧
    (convbin env f opts).1 =
      .ok ("The output from convbin executable is as follows:\n" ++
        "The conversion is successful! Output files are in folder " ++
        pyDirname f ++ " \n") := by
  constructor
  · rw [rnx2rtkp_eval env i e o h1, if_pos h2]
  · simp only [convbin, h3, h4, h5]
    rfl

/-- Witness for C1 (amended) at a concrete successful run of both tools. -/
theorem C1_success_reporting_witness :
    (rnx2rtkp envProcessing ["data/a.obs"] none).1 =
      .ok ("The output from rnx2rtkp executable is as follows:\n" ++
        ("The generated PVT output file is successfully generated at: " ++
          "data/a_pvt_output.pos" ++ "\n")) ∧
    (convbin envProcessing "data/x.ubx" none).1 =
      .ok ("The output from convbin executable is as follows:\n" ++
        "The conversion is successful! Output files are in folder " ++
        pyDirname "data/x.ubx" ++ " \n") :=
  C1_success_reporting envProcessing ["data/a.obs"] none "data/a_pvt_output.pos"
    "data/x.ubx" none "processing done".data
    (by decide) (by decide) (by decide) (by decide) (by decide)


/-- Claim C5 counterexample: a failing `rnx2rtkp` run whose captured standard
error bytes decode to the text `a`, newline, `b`.  The summary embeds
`f-string of result.stderr`, i.e. the repr of the bytes object, which escapes
the newline — so the summary does not contain the captured standard-error text
verbatim. -/
theorem C5_counterexample :
    utf8Decode [97, 10, 98] = some "a\nb".data ∧
    pyIn (strBytes "processing") (envNewline (rnx2rtkp_command ["data/a.obs"] none
      "data/a_pvt_output.pos")).stderr = false ∧
    (rnx2rtkp envNewline ["data/a.obs"] none).1 =
      .ok ("The output from rnx2rtkp executable is as follows:\n" ++ "Standard error:\n" ++
        pyBytesRepr [97, 10, 98] ++ "\n") ∧
    pyIn "a\nb".data
      ("The output from rnx2rtkp executable is as follows:\n" ++ "Standard error:\n" ++
        pyBytesRepr [97, 10, 98] ++ "\n").data = false := by
  refine ⟨by decide, by decide, by decide, by decide⟩

/-- Claim C5 (amended): on a failing run (for `rnx2rtkp`: `processing` absent
from standard error; for `convbin`: nonzero exit status, or `error` present in
the decoded standard error) the summary is exactly the tool's header followed
by `Standard error:`, a newline, the Python repr of the captured standard-error
bytes, and a newline.  It therefore embeds the error text itself only up to
Python's bytes-repr escaping, and it contains the tool's success message only
if the repr of the stderr bytes happens to spell it out. -/
theorem C5_failure_reporting (env : Env) (i : List String) (e : Option String) (o : String)
    (f : String) (opts : Option String)
    (h1 : rnx2rtkp_output_file i e = .ok o)
    (h2 : pyIn (strBytes "processing") (env (rnx2rtkp_command i e o)).stderr = false)
    (h3 : (env (convbin_command f opts)).returncode ≠ 0 ∨
      ∃ d, utf8Decode (env (convbin_command f opts)).stderr = some d ∧
        pyIn "error".data d = true) :
    (rnx2rtkp env i e).1 =
      .ok ("The output from rnx2rtkp executable is as follows:\n" ++
        ("Standard error:\n" ++ pyBytesRepr (env (rnx2rtkp_command i e o)).stderr ++ "\n")) ∧
    (convbin env f opts).1 =
      .ok ("The output from convbin executable is as follows:\n" ++
        "Standard error:\n" ++ pyBytesRepr (env (convbin_command f opts)).stderr ++ "\n") := by
  constructor
  · rw [rnx2rtkp_eval env i e o h1, if_neg]
    rw [h2]
    intro hc
    cases hc
  · rcases h3 with hrc | ⟨d, hd, herr⟩
    · simp only [convbin, if_neg hrc]
    · by_cases hrc : (env (convbin_command f opts)).returncode = 0
      · simp only [convbin, if_pos hrc, hd, herr]
        rfl
      · simp only [convbin, if_neg hrc]

/-- Witness for C5 (amended) at a concrete failing run of both tools (exit
status 1, `fatal` on standard error). -/
theorem C5_failure_reporting_witness :
    (rnx2rtkp envFatal ["data/a.obs"] none).1 =
      .ok ("The output from rnx2rtkp executable is as follows:\n" ++
        ("Standard error:\n" ++
          pyBytesRepr (envFatal (rnx2rtkp_command ["data/a.obs"] none
            "data/a_pvt_output.pos")).stderr ++ "\n")) ∧
    (convbin envFatal "data/x.ubx" none).1 =
      .ok ("The output from convbin executable is as follows:\n" ++
        "Standard error:\n" ++ pyBytesRepr (envFatal (convbin_command "data/x.ubx" none)).stderr
        ++ "\n") :=
  C5_failure_reporting envFatal ["data/a.obs"] none "data/a_pvt_output.pos" "data/x.ubx" none
    (by decide) (by decide) (Or.inl (by decide))

/-- Claim C6 counterexample: `convbin` called on a registered tool with
well-formed arguments raises `UnicodeDecodeError` (a non-setup error) when the
external process exits 0 but emits a byte that is not valid UTF-8 on standard
error — the classification calls `result.stderr.decode()`.  The subprocess was
executed (the trace is non-empty), so this is not an invocation-setup failure. -/
theorem C6_counterexample :
    (convbin envBadByte "data/x.ubx" none).1 = .error .unicodeDecodeError ∧
    (convbin envBadByte "data/x.ubx" none).2 = [convbin_command "data/x.ubx" none] := by
  refine ⟨by decide, by decide⟩

/-- Claim C6 (amended): the tool functions return a summary string and never
raise for a failed external invocation, provided that (for `rnx2rtkp`) the
input list is non-empty, and that (for `convbin`) the captured standard error
decodes as UTF-8 whenever the exit status is 0; outside those provisos an
IndexError or UnicodeDecodeError escapes. -/
theorem C6_no_raise (env : Env) (i : List String) (e : Option String)
    (f : String) (opts : Option String)
    (h1 : i ≠ [])
    (h2 : (env (convbin_command f opts)).returncode = 0 →
      (utf8Decode (env (convbin_command f opts)).stderr).isSome = true) :
    ((rnx2rtkp env i e).1).isOk = true ∧ ((convbin env f opts).1).isOk = true := by
  constructor
  · obtain ⟨o, ho⟩ := rnx2rtkp_output_file_ok i e h1
    rw [rnx2rtkp_eval env i e o ho]
    rfl
  · by_cases hrc : (env (convbin_command f opts)).returncode = 0
    · cases hd : utf8Decode (env (convbin_command f opts)).stderr with
      | none =>
        have h3 := h2 hrc
        rw [hd] at h3
        simp at h3
      | some d =>
        simp only [convbin, if_pos hrc, hd]
        by_cases herr : pyIn "error".data d = true
        · simp only [herr]
          rfl
        · simp only [Bool.not_eq_true] at herr
          simp only [herr]
          rfl
    · simp only [convbin, if_neg hrc]
      rfl

/-- Witness for C6 (amended) at a concrete invocation of both tools. -/
theorem C6_no_raise_witness :
    ((rnx2rtkp envFatal ["data/a.obs"] none).1).isOk = true ∧
    ((convbin envFatal "data/x.ubx" none).1).isOk = true :=
  C6_no_raise envFatal ["data/a.obs"] none "data/x.ubx" none
    (by decide) (by intro h; cases h)


/-- Claim C4 counterexample: with `extra_commands = "-o out.pos -m 15"` the
resolved output file is `out.pos -m 15` — everything after the first `-o` up to
the next occurrence, stripped — not the single path token following `-o`; and
the executed command line contains the `-o` flag twice (once from the split
extra commands, once appended), not exactly once.  Additionally the default
output name uses the basename up to the FIRST dot: `data/a.b.obs` yields
`data/a_pvt_output.pos`, not the stem `a.b`. -/
theorem C4_counterexample :
    rnx2rtkp_output_file ["data/a.b.obs"] (some "-o out.pos -m 15") = .ok "out.pos -m 15" ∧
    (rnx2rtkp envSilent ["data/a.b.obs"] (some "-o out.pos -m 15")).2 =
      [[rnx2rtkp_path, "data/a.b.obs", "-o", "out.pos", "-m", "15", "-o", "out.pos -m 15"]] ∧
    List.count "-o"
      [rnx2rtkp_path, "data/a.b.obs", "-o", "out.pos", "-m", "15", "-o", "out.pos -m 15"] = 2 ∧
    rnx2rtkp_output_file ["data/a.b.obs"] none = .ok "data/a_pvt_output.pos" := by
  refine ⟨by decide, by decide, by decide, by decide⟩

/-- Claim C4 (amended): for `rnx2rtkp`, when `extra_commands` is truthy and
contains the substring `-o`, the appended output path is the stripped text
between the first occurrence of `-o` and the next one (second field of the
split), and the executed command is the executable, the input files, the
whitespace-split extras, then `-o` and that path — so the command gains a
second `-o` whenever the split extras already contain one; otherwise the output
path is the first input file's directory joined with the part of its basename
before the first dot plus `_pvt_output.pos`, and the command line contains
exactly one `-o` flag (provided no input file is the literal token `-o`). -/
theorem C4_resolved_output (env : Env) (i : List String) (extra : Option String) :
    (∀ e seg, extra = some e → pyTruthy (some e) = true → pyIn ['-', 'o'] e.data = true →
      (pySplitDashO [] e.data).get? 1 = some seg →
      rnx2rtkp_output_file i extra = .ok (pyStrip (String.mk seg)) ∧
      (rnx2rtkp env i extra).2 =
        [rnx2rtkp_path :: (i ++ pySplitWs e ++ ["-o", pyStrip (String.mk seg)])]) ∧
    (∀ f rest, i = f :: rest →
      ¬ (pyTruthy extra = true ∧ pyIn ['-', 'o'] (extra.getD "").data = true) →
      rnx2rtkp_output_file i extra =
        .ok (pyPathJoin (pyDirname f) (pySplitDotHead (pyBasename f) ++ "_pvt_output.pos")) ∧
      (rnx2rtkp env i extra).2 = [rnx2rtkp_command i extra
        (pyPathJoin (pyDirname f) (pySplitDotHead (pyBasename f) ++ "_pvt_output.pos"))] ∧
      ("-o" ∉ i → List.count "-o" (rnx2rtkp_command i extra
        (pyPathJoin (pyDirname f) (pySplitDotHead (pyBasename f) ++ "_pvt_output.pos"))) = 1)) := by
  constructor
  · intro e seg hex htr hin hseg
    subst hex
    have hcond : (pyTruthy (some e) && pyIn ['-', 'o'] ((some e : Option String).getD "").data)
        = true := by
      simp only [Option.getD_some]
      rw [htr, hin]
      rfl
    have ho : rnx2rtkp_output_file i (some e) = .ok (pyStrip (String.mk seg)) := by
      unfold rnx2rtkp_output_file
      rw [if_pos hcond]
      simp only [Option.getD_some]
      rw [hseg]
    refine ⟨ho, ?_⟩
    rw [rnx2rtkp_eval env i (some e) _ ho]
    unfold rnx2rtkp_command
    rw [if_pos htr]
    simp only [Option.getD_some]
  · intro f rest hi hno
    have hcond : ¬ (pyTruthy extra && pyIn ['-', 'o'] (extra.getD "").data) = true := by
      rw [Bool.and_eq_true]
      exact hno
    have ho : rnx2rtkp_output_file i extra =
        .ok (pyPathJoin (pyDirname f) (pySplitDotHead (pyBasename f) ++ "_pvt_output.pos")) := by
      unfold rnx2rtkp_output_file
      rw [if_neg hcond, hi]
    refine ⟨ho, ?_, ?_⟩
    · rw [rnx2rtkp_eval env i extra _ ho]
    · intro hnotin
      have hpath : (rnx2rtkp_path == "-o") = false := by decide
      have hout : (pyPathJoin (pyDirname f) (pySplitDotHead (pyBasename f) ++ "_pvt_output.pos")
          == "-o") = false := by
        rw [beq_eq_false_iff_ne]
        exact rnx2rtkp_default_out_ne f
      have hci : List.count "-o" i = 0 := List.count_eq_zero.mpr hnotin
      have hws : List.count "-o"
          (if pyTruthy extra then pySplitWs (extra.getD "") else []) = 0 := by
        by_cases ht : pyTruthy extra = true
        · rw [if_pos ht]
          apply List.count_eq_zero.mpr
          apply notin_pySplitWs_of_not_pyIn
          cases hpy : pyIn "-o".data (extra.getD "").data with
          | false => rfl
          | true => exact absurd ⟨ht, hpy⟩ hno
        · rw [if_neg ht]
          rfl
      unfold rnx2rtkp_command
      rw [List.count_cons_of_ne (by decide : ("-o" : String) ≠ rnx2rtkp_path)]
      rw [List.count_append, List.count_append, hci, hws]
      rw [List.count_cons_self,
        List.count_cons_of_ne (fun hc => (beq_eq_false_iff_ne.mp hout) hc.symm),
        List.count_nil]

/-- Witness for C4 (amended) exercising both branches: an override extra
command string and a plain one. -/
theorem C4_resolved_output_witness :
    rnx2rtkp_output_file ["d/a.obs"] (some "-o out.pos") =
      .ok (pyStrip (String.mk " out.pos".data)) ∧
    rnx2rtkp_output_file ["d/a.obs"] (some "-p 0") =
      .ok (pyPathJoin (pyDirname "d/a.obs")
        (pySplitDotHead (pyBasename "d/a.obs") ++ "_pvt_output.pos")) ∧
    List.count "-o" (rnx2rtkp_command ["d/a.obs"] (some "-p 0")
      (pyPathJoin (pyDirname "d/a.obs")
        (pySplitDotHead (pyBasename "d/a.obs") ++ "_pvt_output.pos"))) = 1 := by
  have ha := (C4_resolved_output envSilent ["d/a.obs"] (some "-o out.pos")).1
    "-o out.pos" " out.pos".data rfl (by decide) (by decide) (by decide)
  have hb := (C4_resolved_output envSilent ["d/a.obs"] (some "-p 0")).2
    "d/a.obs" [] rfl (by decide)
  exact ⟨ha.1, hb.1, hb.2.2 (by decide)⟩


/-- Claim C9: when the last message carries a list of tool calls, `call_tool`
invokes only the first entry — the subprocess trace equals the trace of
invoking that first call alone, whatever the rest of the list is — and, when
that invocation returns a response, the result is exactly one ToolMessage whose
`tool_call_id` is the first call's identifier. -/
theorem C9_first_call_only (env : Env) (ms : List Message) (m : Message)
    (c : ToolCall) (rest : List ToolCall)
    (hm : m.tool_calls = some (c :: rest)) (hargs : c.args ≠ .malformedJson) :
    (call_tool env (ms ++ [m])).2 = (tool_executor_invoke env c.name c.args).2 ∧
    (∀ s, (tool_executor_invoke env c.name c.args).1 = .ok s →
      (call_tool env (ms ++ [m])).1 = .ok (mkToolMessage c.id s c.name)) := by
  rw [call_tool_cons_calls env (ms ++ [m]) m c rest (List.getLast?_concat ms) hm]
  cases ha : c.args with
  | malformedJson => exact absurd ha hargs
  | rnx a b =>
    cases hinv : tool_executor_invoke env c.name (.rnx a b) with
    | mk r tr =>
      cases r with
      | error e2 =>
        refine ⟨rfl, ?_⟩
        intro s hs
        simp at hs
      | ok s0 =>
        refine ⟨rfl, ?_⟩
        intro s hs
        simp at hs
        subst hs
        rfl
  | conv a b =>
    cases hinv : tool_executor_invoke env c.name (.conv a b) with
    | mk r tr =>
      cases r with
      | error e2 =>
        refine ⟨rfl, ?_⟩
        intro s hs
        simp at hs
      | ok s0 =>
        refine ⟨rfl, ?_⟩
        intro s hs
        simp at hs
        subst hs
        rfl

/-- Witness for C9: a message carrying two tool calls; only the first
(a `convbin` call) is invoked, and the ToolMessage carries its identifier. -/
theorem C9_first_call_only_witness :
    (call_tool envFatal [⟨Role.assistant, "",
      some [⟨"call_1", "convbin", .conv "data/x.ubx" none⟩,
            ⟨"call_2", "rnx2rtkp", .rnx ["data/a.obs"] none⟩], none, none⟩]).2 =
      (tool_executor_invoke envFatal "convbin" (.conv "data/x.ubx" none)).2 ∧
    (call_tool envFatal [⟨Role.assistant, "",
      some [⟨"call_1", "convbin", .conv "data/x.ubx" none⟩,
            ⟨"call_2", "rnx2rtkp", .rnx ["data/a.obs"] none⟩], none, none⟩]).1 =
      .ok (mkToolMessage "call_1"
        ("The output from convbin executable is as follows:\n" ++
          "Standard error:\n" ++ pyBytesRepr (strBytes "fatal") ++ "\n") "convbin") := by
  have h := C9_first_call_only envFatal []
    ⟨Role.assistant, "",
      some [⟨"call_1", "convbin", .conv "data/x.ubx" none⟩,
            ⟨"call_2", "rnx2rtkp", .rnx ["data/a.obs"] none⟩], none, none⟩
    ⟨"call_1", "convbin", .conv "data/x.ubx" none⟩
    [⟨"call_2", "rnx2rtkp", .rnx ["data/a.obs"] none⟩]
    rfl (by decide)
  exact ⟨h.1, h.2 _ (by decide)⟩

/-- Claim C7: in every run of the compiled graph, an assistant reply carrying a
tool-call list is immediately followed by exactly one ToolMessage tagged with
the first call's identifier before the next completion request, and a reply
without a tool call ends the run — stated as: the produced message suffix
satisfies the `LoopTrace` alternation discipline.  The hypothesis says every
tool call the agent oracle emits is one `call_tool` can answer (otherwise the
exception propagates and the turn dies, see C3). -/
theorem C7_loop_alternation (agent : List Message → Message) (env : Env)
    (fuel : Nat) (h : List Message)
    (Hok : ∀ h0 l, (agent h0).tool_calls = some l →
      ((call_tool env (h0 ++ [agent h0])).1).isOk = true) :
    ∃ p, graphRun agent env fuel h = some (h ++ p) ∧ LoopTrace agent env h p :=
  graphRun_loopTrace agent env Hok fuel h

/-- Witness for C7 with an agent oracle that always answers in plain text. -/
theorem C7_loop_alternation_witness :
    ∃ p, graphRun agentPlain envSilent 2 [] = some ([] ++ p) ∧
      LoopTrace agentPlain envSilent [] p :=
  C7_loop_alternation agentPlain envSilent 2 []
    (by intro h0 l hl; simp [agentPlain] at hl)

/-- Claim C8: the history is append-only across a user turn: whenever a turn of
the interactive loop completes with a new history, that history is the old one
with the user message and the graph-produced messages appended in order. -/
theorem C8_append_only (agent : List Message → Message) (env : Env)
    (fuel : Nat) (history : List Message) (user : String) (history2 : List Message)
    (hs : sessionStep agent env fuel history user = some history2) :
    ∃ produced, history2 = history ++ humanMessage user :: produced := by
  unfold sessionStep at hs
  by_cases hq : user = "q" ∨ user = "Q"
  · rw [if_pos hq] at hs
    cases hs
  · rw [if_neg hq] at hs
    obtain ⟨p, hp⟩ := graphRun_append agent env fuel (history ++ [humanMessage user]) history2 hs
    refine ⟨p, ?_⟩
    rw [hp]
    simp

/-- Witness for C8 at a one-turn session with a plain-text agent. -/
theorem C8_append_only_witness :
    ∃ produced, [humanMessage "hello", agentPlain []] =
      [] ++ humanMessage "hello" :: produced :=
  C8_append_only agentPlain envSilent 1 [] "hello"
    [humanMessage "hello", agentPlain []] (by decide)

